import Mathlib

/-!
Verification development for the vote-casting and results core of the
alx-pully polling application.

The embedding is shallow and executable.  Timestamps are integers
(seconds); `new Date(a) < new Date(b)` becomes `a < b`.  JavaScript
optional / nullable values become `Option`.  Database rows are records in
lists; a multi-row INSERT is processed sequentially and aborts as a whole
on the first error, matching a single SQL statement.  The embedding
models the application code (src/lib/database.ts, the vote route
handlers, src/lib/utils.ts, the batch route) together with the votes
table storage machinery from the schema: the two UNIQUE constraints,
the validate_vote BEFORE INSERT trigger, and the WITH CHECK of the
votes INSERT row-level-security policy, which carries no session state
and so applies through the anon/auth-key clients the vote paths use.
The remaining row-level-security policies key on auth.uid() session
state and are outside the modelled core.

Percentages: get_poll_results returns NUMERIC(5,2); an exact decimal
with two fractional digits is represented as an integer number of
hundredths.  Rounding: for nonnegative operands both Postgres
ROUND(x, d) (half away from zero) and JavaScript Math.round (half up)
agree with floor (x + 1/2), and for naturals a b with 0 < b,
floor (a / b + 1/2) = (2 * a + b) / (2 * b) in natural division, which is
the form used below so that every definition evaluates by `decide`.
-/

deriving instance DecidableEq for Except

namespace Pully

/-- A row of the `polls` table (the columns this core reads). -/
structure Poll where
  id : String
  creator_id : String
  is_public : Bool
  allow_multiple_votes : Bool
  allow_anonymous_votes : Bool
  expires_at : Option Int
  deriving DecidableEq, Repr

/-- A row of the `poll_options` table. -/
structure PollOption where
  id : String
  poll_id : String
  text : String
  order_index : Int
  deriving DecidableEq, Repr

/-- A row of the `votes` table (`id` is a surrogate for the UUID;
`ip_address` and `user_agent` are never read by this core and are
omitted).  The schema has no `updated_at` column on votes. -/
structure VoteRow where
  id : Nat
  poll_id : String
  option_id : String
  user_id : Option String
  voter_fingerprint : Option String
  created_at : Int
  deriving DecidableEq, Repr

/-- The authoritative store: polls, poll options and the vote ledger.
`nextId` generates fresh vote ids. -/
structure DB where
  polls : List Poll
  options : List PollOption
  votes : List VoteRow
  nextId : Nat
  deriving DecidableEq, Repr

/-- The request body of a cast-vote call (types/database.ts `VoteForm`). -/
structure VoteForm where
  poll_id : String
  option_ids : List String
  voter_fingerprint : Option String
  deriving DecidableEq, Repr

/-- `.from("polls").select(...).eq("id", pollId).single()`. -/
def findPoll (db : DB) (pollId : String) : Option Poll :=
  db.polls.find? (fun p => p.id = pollId)

/-- The expiry test used by the route, by castVote and by the
validate_vote trigger: `expires_at` set and strictly before now. -/
def pollExpired (p : Poll) (now : Int) : Bool :=
  match p.expires_at with
  | some t => decide (t < now)
  | none => false

/-- One row of the payload `castVote` / `insertVotesWithRetry` build for
`.from("votes").insert(...)`. -/
structure VoteIns where
  poll_id : String
  option_id : String
  user_id : Option String
  voter_fingerprint : Option String
  deriving DecidableEq, Repr

/-- The validate_vote BEFORE INSERT trigger from the schema: rejects a
row when its poll is missing, expired, or when the poll disallows
multiple votes and the same user id (resp. the same non-null
fingerprint of an anonymous row) already has a vote on the poll.
Returns the exception message, or none when the row passes. -/
def validate_vote (db : DB) (now : Int) (r : VoteIns) : Option String :=
  match findPoll db r.poll_id with
  | none => some "Poll not found"
  | some poll =>
    if pollExpired poll now then some "Poll has expired"
    else if r.user_id ≠ none ∧ poll.allow_multiple_votes = false ∧
        db.votes.any (fun v => v.poll_id = r.poll_id ∧ v.user_id = r.user_id) then
      some "Multiple votes not allowed for this poll"
    else if r.user_id = none ∧ r.voter_fingerprint ≠ none ∧
        poll.allow_multiple_votes = false ∧
        db.votes.any (fun v =>
          v.poll_id = r.poll_id ∧ v.voter_fingerprint = r.voter_fingerprint) then
      some "Multiple votes not allowed for this poll"
    else none

/-- The expiry half of the votes INSERT policy:
expires_at IS NULL OR expires_at > NOW() (strictly in the future). -/
def pollStillOpen (p : Poll) (now : Int) : Bool :=
  match p.expires_at with
  | none => true
  | some t => decide (now < t)

/-- The WITH CHECK of the votes INSERT row-level-security policy
"Anyone can vote on public polls" from the schema: the target poll must
exist, be public, and either never expire or expire strictly after now.
This check carries no session state, so it applies through the
anon/auth-key clients every vote path uses and belongs to the modelled
storage layer. -/
def votesInsertPolicy (db : DB) (now : Int) (r : VoteIns) : Bool :=
  db.polls.any (fun p =>
    p.id = r.poll_id ∧ p.is_public = true ∧ pollStillOpen p now = true)

/-- The two UNIQUE constraints of the votes table,
UNIQUE(poll_id, user_id) and UNIQUE(poll_id, voter_fingerprint):
a new row conflicts with an existing one when they share the poll and a
non-null user id, or the poll and a non-null fingerprint (SQL UNIQUE
treats NULLs as distinct). -/
def uniqueConflict (db : DB) (r : VoteIns) : Bool :=
  db.votes.any (fun v =>
    (v.poll_id = r.poll_id ∧ r.user_id ≠ none ∧ v.user_id = r.user_id) ∨
    (v.poll_id = r.poll_id ∧ r.voter_fingerprint ≠ none ∧
      v.voter_fingerprint = r.voter_fingerprint))

/-- `.from("votes").insert(rows).select()`: rows are processed in order;
each fires the validate_vote trigger, is checked against the INSERT
policy WITH CHECK, and against the UNIQUE constraints (seeing rows
inserted earlier in the same statement); any failure aborts the whole
statement with no row kept. -/
def insertVotes (db : DB) (now : Int) (rows : List VoteIns) :
    Except String (DB × List VoteRow) :=
  match rows with
  | [] => .ok (db, [])
  | r :: rest =>
    match validate_vote db now r with
    | some e => .error e
    | none =>
      if votesInsertPolicy db now r = false then
        .error "new row violates row-level security policy for table votes"
      else if uniqueConflict db r then
        .error "duplicate key value violates unique constraint"
      else
        match insertVotes
            { db with
              votes := db.votes ++
                [{ id := db.nextId, poll_id := r.poll_id,
                   option_id := r.option_id, user_id := r.user_id,
                   voter_fingerprint := r.voter_fingerprint,
                   created_at := now }],
              nextId := db.nextId + 1 }
            now rest with
        | .error e => .error e
        | .ok (db', inserted) =>
          .ok (db',
            { id := db.nextId, poll_id := r.poll_id,
              option_id := r.option_id, user_id := r.user_id,
              voter_fingerprint := r.voter_fingerprint,
              created_at := now } :: inserted)

/-- `.from("votes").delete().eq("poll_id", p).eq("user_id", u)`:
keeps every row that does not match both filters (a NULL user_id never
matches a non-null `u`). -/
def deleteVotesByUser (db : DB) (pollId u : String) : DB :=
  { db with votes :=
      db.votes.filter (fun v => ¬(v.poll_id = pollId ∧ v.user_id = some u)) }

/-- `.from("votes").delete().eq("poll_id", p).eq("voter_fingerprint", f)`. -/
def deleteVotesByFingerprint (db : DB) (pollId f : String) : DB :=
  { db with votes :=
      db.votes.filter (fun v =>
        ¬(v.poll_id = pollId ∧ v.voter_fingerprint = some f)) }

/-- The delete step of castVote: remove the caller identity's existing
votes on the poll (by user id when authenticated, by fingerprint when
one was supplied, otherwise nothing to delete). -/
def deleteExistingForIdentity (db : DB) (pollId : String)
    (userId fingerprint : Option String) : DB :=
  match userId with
  | some u => deleteVotesByUser db pollId u
  | none =>
    match fingerprint with
    | some f => deleteVotesByFingerprint db pollId f
    | none => db

/-- src/lib/database.ts `castVote`: fetch the poll, reject if expired,
delete the caller identity's existing votes when multiple votes are
disallowed, then insert one row per selected option. -/
def castVote (db : DB) (now : Int) (voteData : VoteForm)
    (userId : Option String) : Except String (DB × List VoteRow) :=
  match findPoll db voteData.poll_id with
  | none => .error "Failed to fetch poll"
  | some poll =>
    if pollExpired poll now then .error "Poll has expired"
    else
      match insertVotes
          (if poll.allow_multiple_votes = false then
            deleteExistingForIdentity db voteData.poll_id userId
              voteData.voter_fingerprint
          else db) now
          (voteData.option_ids.map (fun optionId =>
            { poll_id := voteData.poll_id, option_id := optionId,
              user_id := userId,
              voter_fingerprint := voteData.voter_fingerprint })) with
      | .error e => .error ("Failed to cast vote: " ++ e)
      | .ok r => .ok r

/-- src/lib/database.ts `getUserVote`: the caller's votes on a poll,
filtered by user id when authenticated, else by fingerprint when one is
supplied, else the empty list. -/
def getUserVote (db : DB) (pollId : String)
    (userId fingerprint : Option String) : List VoteRow :=
  match userId with
  | some u => db.votes.filter (fun v => v.poll_id = pollId ∧ v.user_id = some u)
  | none =>
    match fingerprint with
    | some f =>
      db.votes.filter (fun v =>
        v.poll_id = pollId ∧ v.voter_fingerprint = some f)
    | none => []

/-- src/lib/utils.ts `calculatePercentage`: 0 when total is 0, else
Math.round((part / total) * 100) — an integer number of percent.
For naturals, Math.round(a / b) = floor(a / b + 1/2) = (2a + b) / (2b)
in natural division, with a = part * 100, b = total. -/
def calculatePercentage (part total : ℕ) : ℕ :=
  if total = 0 then 0 else (2 * (part * 100) + total) / (2 * total)

/-- The percentage computed by the SQL function get_poll_results,
ROUND((count / total) * 100, 2) :: NUMERIC(5,2), represented exactly as
an integer number of hundredths of a percent: 0 when total is 0, else
floor((count / total) * 10000 + 1/2) = (2 * (count * 10000) + total) /
(2 * total) in natural division. -/
def pctHundredths (count total : ℕ) : ℕ :=
  if total = 0 then 0 else (2 * (count * 10000) + total) / (2 * total)

/-- One row returned by get_poll_results; `percentage_hundredths` is the
NUMERIC(5,2) percentage scaled by 100 (so 3333 stands for 33.33). -/
structure ResultRow where
  option_id : String
  option_text : String
  order_index : Int
  vote_count : ℕ
  percentage_hundredths : ℕ
  deriving DecidableEq, Repr

/-- Insertion step for ordering options by order_index
(ORDER BY po.order_index; order_index is unique per poll). -/
def insertByOrder (o : PollOption) : List PollOption → List PollOption
  | [] => [o]
  | x :: xs =>
    if o.order_index ≤ x.order_index then o :: x :: xs
    else x :: insertByOrder o xs

/-- Sort a poll's options by order_index. -/
def sortByOrderIndex : List PollOption → List PollOption
  | [] => []
  | x :: xs => insertByOrder x (sortByOrderIndex xs)

/-- The SQL function get_poll_results from the schema: per option of the
poll, in order_index order, the vote count and the rounded percentage of
the poll's total votes (0 for every option when the total is 0). -/
def get_poll_results (db : DB) (pollId : String) : List ResultRow :=
  let total := (db.votes.filter (fun v => v.poll_id = pollId)).length
  (sortByOrderIndex (db.options.filter (fun o => o.poll_id = pollId))).map
    (fun o =>
      let c := (db.votes.filter
        (fun v => v.poll_id = pollId ∧ v.option_id = o.id)).length
      { option_id := o.id, option_text := o.text,
        order_index := o.order_index, vote_count := c,
        percentage_hundredths := pctHundredths c total })

/-- Outcome of the primary vote route (POST /api/polls/[id]/vote). -/
inductive ApiResponse where
  | ok (votes : List VoteRow) (results : List ResultRow)
  | err (status : Nat) (msg : String)
  deriving DecidableEq, Repr

/-- Whether a response is a success. -/
def ApiResponse.isOk : ApiResponse → Bool
  | .ok _ _ => true
  | .err _ _ => false

/-- The votes carried by a success response (empty on an error). -/
def ApiResponse.votesOf : ApiResponse → List VoteRow
  | .ok vs _ => vs
  | .err _ _ => []

/-- The primary cast-vote handler, POST of
src/app/api/polls/[id]/vote/route.ts: request validation in source
order, then castVote, then get_poll_results.  A thrown DatabaseError is
surfaced as a 400 with its message, as in the route's catch block.
Returns the response together with the resulting store. -/
def basicVotePost (db : DB) (now : Int) (user : Option String)
    (option_ids : List String) (voter_fingerprint : Option String)
    (pollId : String) : ApiResponse × DB :=
  if option_ids = [] then
    (.err 400 "At least one option must be selected", db)
  else
    match findPoll db pollId with
    | none => (.err 404 "Poll not found", db)
    | some poll =>
      if poll.is_public = false ∧ user ≠ some poll.creator_id then
        (.err 403 "Access denied", db)
      else if pollExpired poll now then
        (.err 400 "Poll has expired", db)
      else if user = none ∧ poll.allow_anonymous_votes = false then
        (.err 401 "Authentication required to vote on this poll", db)
      else if (db.options.filter
          (fun o => o.poll_id = pollId ∧ o.id ∈ option_ids)).length ≠
          option_ids.length then
        (.err 400 "Invalid option IDs provided", db)
      else if poll.allow_multiple_votes = false ∧ 1 < option_ids.length then
        (.err 400 "Multiple votes are not allowed for this poll", db)
      else if poll.allow_multiple_votes = false ∧
          getUserVote db pollId user voter_fingerprint ≠ [] then
        (.err 400 "You have already voted on this poll", db)
      else
        let voteData : VoteForm :=
          { poll_id := pollId, option_ids := option_ids,
            voter_fingerprint :=
              match user with
              | some _ => none
              | none => voter_fingerprint }
        match castVote db now voteData user with
        | .error e => (.err 400 e, db)
        | .ok (db', votes) => (.ok votes (get_poll_results db' pollId), db')

/-- Outcome of the vote-removal route (DELETE /api/polls/[id]/vote). -/
inductive DeleteResponse where
  | ok (results : List ResultRow)
  | err (status : Nat) (msg : String)
  deriving DecidableEq, Repr

/-- The vote-removal handler, DELETE of
src/app/api/polls/[id]/vote/route.ts: requires an authenticated user;
deleteAll is creator-only; the delete statement filters on
poll_id = pollId and, when deleteAll is not set, also on
user_id = user.id (a NULL user_id never equals a non-null id, so
fingerprint-only rows never match that filter). -/
def deleteVotesHandler (db : DB) (user : Option String) (pollId : String)
    (deleteAll : Bool) : DeleteResponse × DB :=
  match user with
  | none => (.err 401 "Authentication required", db)
  | some u =>
    match findPoll db pollId with
    | none => (.err 404 "Poll not found", db)
    | some poll =>
      if deleteAll = true ∧ poll.creator_id ≠ u then
        (.err 403 "Only poll creators can delete all votes", db)
      else
        let db' : DB :=
          { db with votes := db.votes.filter (fun v =>
              ¬(v.poll_id = pollId ∧
                (deleteAll = true ∨ v.user_id = some u))) }
        (.ok (get_poll_results db' pollId), db')

/-- The Redis store backing the rate limiter: (key, counter, expiry).
A key whose expiry is not strictly in the future is gone. -/
abbrev RateLimitStore := List (String × Nat × Int)

/-- RATE_LIMIT_WINDOW from the optimized vote route: 1 minute. -/
def RATE_LIMIT_WINDOW : Int := 60

/-- RATE_LIMIT_MAX_VOTES from the optimized vote route. -/
def RATE_LIMIT_MAX_VOTES : Nat := 10

/-- JavaScript `a || b` on nullable strings: the empty string is falsy. -/
def jsOr (a : Option String) (b : String) : String :=
  match a with
  | some s => if s = "" then b else s
  | none => b

/-- The key built inside checkRateLimit:
rate_limit:vote: followed by userId || fingerprint || "anonymous". -/
def checkRateLimitKey (userId fingerprint : Option String) : String :=
  "rate_limit:vote:" ++ jsOr userId (jsOr fingerprint "anonymous")

/-- The key built inside updateRateLimit (the same expression,
duplicated in the source). -/
def updateRateLimitKey (userId fingerprint : Option String) : String :=
  "rate_limit:vote:" ++ jsOr userId (jsOr fingerprint "anonymous")

/-- Raw lookup of a rate-limit entry, ignoring expiry. -/
def redisFind (rl : RateLimitStore) (key : String) : Option (Nat × Int) :=
  match rl.find? (fun e => e.1 = key) with
  | some e => some e.2
  | none => none

/-- redis.get of a counter key: its value while the key is live
(now strictly before the expiry), else null. -/
def redisGetCount (rl : RateLimitStore) (now : Int) (key : String) :
    Option Nat :=
  match redisFind rl key with
  | some (c, exp) => if now < exp then some c else none
  | none => none

/-- Result of checkRateLimit; retryAfter is only meaningful when the
request is denied (the source leaves it undefined otherwise). -/
structure RateCheck where
  allowed : Bool
  retryAfter : Int
  deriving DecidableEq, Repr

/-- checkRateLimit from the optimized vote route: read the counter
(0 when the key is missing or expired); deny with retryAfter = TTL when
it has reached RATE_LIMIT_MAX_VOTES.  redis.ttl is the remaining
lifetime of a live key and -2 for a missing one. -/
def checkRateLimit (rl : RateLimitStore) (now : Int)
    (userId fingerprint : Option String) : RateCheck :=
  let key := checkRateLimitKey userId fingerprint
  let count := (redisGetCount rl now key).getD 0
  if RATE_LIMIT_MAX_VOTES ≤ count then
    { allowed := false,
      retryAfter :=
        match redisFind rl key with
        | some (_, exp) => if now < exp then exp - now else -2
        | none => -2 }
  else
    { allowed := true, retryAfter := 0 }

/-- updateRateLimit from the optimized vote route: INCR (an expired or
missing key restarts from 0) then EXPIRE key RATE_LIMIT_WINDOW. -/
def updateRateLimit (rl : RateLimitStore) (now : Int)
    (userId fingerprint : Option String) : RateLimitStore :=
  let key := updateRateLimitKey userId fingerprint
  (key, (redisGetCount rl now key).getD 0 + 1, now + RATE_LIMIT_WINDOW) ::
    rl.filter (fun e => e.1 ≠ key)

/-- The Redis poll cache: (key, cached poll row, expiry). -/
abbrev PollCache := List (String × Poll × Int)

/-- Cache TTL used by getCachedPoll (setex ... 300). -/
def POLL_CACHE_TTL : Int := 300

/-- Live lookup of `poll:` ++ pollId in the cache. -/
def cacheGet (cache : PollCache) (now : Int) (pollId : String) :
    Option Poll :=
  match cache.find? (fun e => e.1 = "poll:" ++ pollId) with
  | some (_, poll, exp) => if now < exp then some poll else none
  | none => none

/-- getCachedPoll from the optimized vote route: return the cached row
when live, else fetch from the store (.single() errors when the poll is
absent, thrown as a DatabaseError) and cache it for POLL_CACHE_TTL. -/
def getCachedPoll (db : DB) (cache : PollCache) (now : Int)
    (pollId : String) : Except String (Poll × PollCache) :=
  match cacheGet cache now pollId with
  | some poll => .ok (poll, cache)
  | none =>
    match findPoll db pollId with
    | none => .error "Failed to fetch poll: no rows returned"
    | some poll =>
      .ok (poll,
        ("poll:" ++ pollId, poll, now + POLL_CACHE_TTL) ::
          cache.filter (fun e => e.1 ≠ "poll:" ++ pollId))

/-- validatePollForVoting from the optimized vote route: the only check
is expiry (strictly before now). -/
def validatePollForVoting (poll : Poll) (now : Int) : Option String :=
  if pollExpired poll now then some "Poll has expired" else none

/-- getExistingVotes from the optimized vote route (same filter logic as
getUserVote). -/
def getExistingVotes (db : DB) (pollId : String)
    (userId fingerprint : Option String) : List VoteRow :=
  match userId with
  | some u => db.votes.filter (fun v => v.poll_id = pollId ∧ v.user_id = some u)
  | none =>
    match fingerprint with
    | some f =>
      db.votes.filter (fun v =>
        v.poll_id = pollId ∧ v.voter_fingerprint = some f)
    | none => []

/-- replaceExistingVote from the optimized vote route: issues
UPDATE votes SET option_id = option_ids[0], updated_at = now() WHERE
id = existing.id.  The votes table defines no updated_at column (the
schema and types/database.ts agree), so the store rejects the statement
for addressing an unknown column; the helper then throws a
DatabaseError and no row is replaced. -/
def replaceExistingVote (db : DB) (voteData : VoteForm)
    (existing : VoteRow) : Except String (DB × List VoteRow) :=
  .error
    "Failed to update vote: could not find the updated_at column of votes in the schema cache"

/-- insertVotesWithRetry from the optimized vote route: builds one row
per option (user_id and voter_fingerprint both taken from the request)
and inserts them.  The store is deterministic here, so the up-to-3
retries collapse to a single attempt: every retry of a failing
statement fails the same way. -/
def insertVotesWithRetry (db : DB) (now : Int) (voteData : VoteForm)
    (userId fingerprint : Option String) :
    Except String (DB × List VoteRow) :=
  match insertVotes db now
      (voteData.option_ids.map (fun optionId =>
        { poll_id := voteData.poll_id, option_id := optionId,
          user_id := userId, voter_fingerprint := fingerprint })) with
  | .error e => .error ("Failed to insert votes: " ++ e)
  | .ok r => .ok r

/-- Outcome of the optimized vote route. -/
inductive OptResponse where
  | ok (votes : List VoteRow)
  | rateLimited (retryAfter : Int)
  | err (status : Nat) (msg : String)
  deriving DecidableEq, Repr

/-- The optimized cast-vote handler (the second POST of
src/app/api/polls/[id]/vote/route.ts): poll-id match, rate-limit gate,
cached poll fetch, expiry validation, then either an attempted in-place
replace of an existing vote (single-vote polls; the update statement
fails at the store, see replaceExistingVote) or an insert followed by
the rate-limit increment.  Returns the response with the resulting
store, rate-limit store and poll cache. -/
def optimizedVotePost (db : DB) (cache : PollCache) (rl : RateLimitStore)
    (now : Int) (user fingerprint : Option String) (voteData : VoteForm)
    (pollIdParam : String) :
    OptResponse × DB × RateLimitStore × PollCache :=
  if voteData.poll_id ≠ pollIdParam then
    (.err 400 "Poll ID mismatch", db, rl, cache)
  else
    let rc := checkRateLimit rl now user fingerprint
    if rc.allowed = false then
      (.rateLimited rc.retryAfter, db, rl, cache)
    else
      match getCachedPoll db cache now voteData.poll_id with
      | .error e => (.err 500 e, db, rl, cache)
      | .ok (poll, cache') =>
        match validatePollForVoting poll now with
        | some e => (.err 400 e, db, rl, cache')
        | none =>
          match poll.allow_multiple_votes,
              getExistingVotes db voteData.poll_id user fingerprint with
          | false, e0 :: _ =>
            match replaceExistingVote db voteData e0 with
            | .error e => (.err 500 e, db, rl, cache')
            | .ok r => (.ok r.2, r.1, rl, cache')
          | _, _ =>
            match insertVotesWithRetry db now voteData user fingerprint with
            | .error e => (.err 500 e, db, rl, cache')
            | .ok (db', inserted) =>
              (.ok inserted, db', updateRateLimit rl now user fingerprint,
                cache')

/-- One entry of the batch-vote request body. -/
structure BatchEntry where
  optionId : String
  userId : Option String
  fingerprint : Option String
  deriving DecidableEq, Repr

/-- CHUNK_SIZE from the batch-vote route. -/
def CHUNK_SIZE : Nat := 100

/-- The chunking loop of the batch-vote route: successive slices of
CHUNK_SIZE entries. -/
def chunksOf (votes : List BatchEntry) : List (List BatchEntry) :=
  if h : votes = [] then []
  else votes.take CHUNK_SIZE :: chunksOf (votes.drop CHUNK_SIZE)
termination_by votes.length
decreasing_by
  simp only [List.length_drop, CHUNK_SIZE]
  have : votes.length ≠ 0 := fun hl => h (List.eq_nil_of_length_eq_zero hl)
  omega

/-- The insert payload the batch route builds for one chunk
(created_at is attached by the route; it is not read back by any
claim). -/
def mkBatchInserts (pollId : String) (chunk : List BatchEntry) :
    List VoteIns :=
  chunk.map (fun v =>
    { poll_id := pollId, option_id := v.optionId, user_id := v.userId,
      voter_fingerprint := v.fingerprint })

/-- The batch-vote handler, POST of src/app/api/polls/batch-vote:
each chunk is submitted independently through the store insert
(abstracted as insertFn, so that an infrastructure failure of a single
chunk's statement can be expressed); a failed chunk adds its whole
length to `failed` and one message to `errors`, a successful chunk adds
the number of returned rows to `processed`. -/
def processBatch (insertFn : List VoteIns → Except String (List VoteRow))
    (pollId : String) (votes : List BatchEntry) :
    Nat × Nat × List String :=
  (chunksOf votes).foldl
    (fun acc chunk =>
      match insertFn (mkBatchInserts pollId chunk) with
      | .error e => (acc.1, acc.2.1 + chunk.length,
          acc.2.2 ++ ["Batch error: " ++ e])
      | .ok data => (acc.1 + data.length, acc.2.1, acc.2.2))
    (0, 0, [])

/-- The number of ledger rows of one authenticated user on one poll. -/
def userVoteCount (db : DB) (pollId u : String) : Nat :=
  (db.votes.filter (fun v => v.poll_id = pollId ∧ v.user_id = some u)).length

/-- The ledger row a cast with neither user id nor fingerprint leaves
behind: both identity columns null. -/
def nullIdentityRow (db : DB) (pid oid : String) (now : Int) : VoteRow :=
  { id := db.nextId, poll_id := pid, option_id := oid, user_id := none,
    voter_fingerprint := none, created_at := now }

/-- A store extended by one freshly inserted ledger row. -/
def appendVote (db : DB) (v : VoteRow) : DB :=
  { db with votes := db.votes ++ [v], nextId := db.nextId + 1 }

/-- A public single-vote poll allowing anonymous votes, no expiry. -/
def singlePoll : Poll :=
  { id := "p1", creator_id := "c1", is_public := true,
    allow_multiple_votes := false, allow_anonymous_votes := true,
    expires_at := none }

/-- The two options of singlePoll. -/
def singleOpts : List PollOption :=
  [{ id := "o1", poll_id := "p1", text := "A", order_index := 0 },
   { id := "o2", poll_id := "p1", text := "B", order_index := 1 }]

/-- An existing vote of user u1 for option o1 on singlePoll. -/
def u1Row : VoteRow :=
  { id := 1, poll_id := "p1", option_id := "o1", user_id := some "u1",
    voter_fingerprint := none, created_at := 5 }

/-- A store where user u1 has already voted o1 on the single-vote poll. -/
def votedDB : DB :=
  { polls := [singlePoll], options := singleOpts, votes := [u1Row],
    nextId := 2 }

/-- A re-vote of u1 for option o2. -/
def revoteForm : VoteForm :=
  { poll_id := "p1", option_ids := ["o2"], voter_fingerprint := none }

/-- A store with the single-vote poll and no votes yet. -/
def emptyDB : DB :=
  { polls := [singlePoll], options := singleOpts, votes := [], nextId := 1 }

/-- A public multi-vote poll (p2) allowing anonymous votes, no expiry. -/
def multiPoll : Poll :=
  { id := "p2", creator_id := "c1", is_public := true,
    allow_multiple_votes := true, allow_anonymous_votes := true,
    expires_at := none }

/-- A store with the multi-vote poll and no votes yet. -/
def multiDB : DB :=
  { polls := [multiPoll],
    options := [{ id := "m1", poll_id := "p2", text := "A", order_index := 0 },
                { id := "m2", poll_id := "p2", text := "B", order_index := 1 }],
    votes := [], nextId := 1 }

/-- u1's first ballot on the multi-vote poll: option m1. -/
def multiForm1 : VoteForm :=
  { poll_id := "p2", option_ids := ["m1"], voter_fingerprint := none }

/-- u1's second ballot on the multi-vote poll: option m2. -/
def multiForm2 : VoteForm :=
  { poll_id := "p2", option_ids := ["m2"], voter_fingerprint := none }

/-- The store after u1's first successful multi-vote ballot. -/
def multiDB1 : DB :=
  { multiDB with
    votes := [{ id := 1, poll_id := "p2", option_id := "m1",
                user_id := some "u1", voter_fingerprint := none,
                created_at := 10 }],
    nextId := 2 }

/-- A public poll expiring exactly at time 100. -/
def expiringPoll : Poll :=
  { id := "p6", creator_id := "c1", is_public := true,
    allow_multiple_votes := false, allow_anonymous_votes := true,
    expires_at := some 100 }

/-- A store with the expiring poll and no votes. -/
def expiringDB : DB :=
  { polls := [expiringPoll],
    options := [{ id := "e1", poll_id := "p6", text := "A", order_index := 0 }],
    votes := [], nextId := 1 }

/-- An anonymous ballot for the expiring poll. -/
def expiringForm : VoteForm :=
  { poll_id := "p6", option_ids := ["e1"], voter_fingerprint := some "f1" }

/-- A store for the percentage comparison: three votes on poll p4,
one for option q1 and two for option q2. -/
def pctDB : DB :=
  { polls := [{ id := "p4", creator_id := "c1", is_public := true,
                allow_multiple_votes := true, allow_anonymous_votes := true,
                expires_at := none }],
    options := [{ id := "q1", poll_id := "p4", text := "A", order_index := 0 },
                { id := "q2", poll_id := "p4", text := "B", order_index := 1 }],
    votes := [{ id := 1, poll_id := "p4", option_id := "q1",
                user_id := some "a", voter_fingerprint := none,
                created_at := 0 },
              { id := 2, poll_id := "p4", option_id := "q2",
                user_id := some "b", voter_fingerprint := none,
                created_at := 0 },
              { id := 3, poll_id := "p4", option_id := "q2",
                user_id := some "c", voter_fingerprint := none,
                created_at := 0 }],
    nextId := 4 }

/-- u1's own row on poll p1 (the one a self-removal should delete). -/
def frameRowTarget : VoteRow :=
  { id := 1, poll_id := "p1", option_id := "o1", user_id := some "u1",
    voter_fingerprint := none, created_at := 0 }

/-- u1's row on a different poll p9. -/
def frameRowOtherPoll : VoteRow :=
  { id := 2, poll_id := "p9", option_id := "o1", user_id := some "u1",
    voter_fingerprint := none, created_at := 0 }

/-- u2's row on poll p1. -/
def frameRowOtherUser : VoteRow :=
  { id := 3, poll_id := "p1", option_id := "o2", user_id := some "u2",
    voter_fingerprint := none, created_at := 0 }

/-- An anonymous fingerprint-only row on poll p1. -/
def frameRowAnon : VoteRow :=
  { id := 4, poll_id := "p1", option_id := "o1", user_id := none,
    voter_fingerprint := some "f9", created_at := 0 }

/-- A ledger for the deletion frame property: u1's row on p1, u1's row
on another poll p9, u2's row on p1, and an anonymous fingerprint-only
row on p1. -/
def frameDB : DB :=
  { polls := [singlePoll,
              { id := "p9", creator_id := "c1", is_public := true,
                allow_multiple_votes := false,
                allow_anonymous_votes := true, expires_at := none }],
    options := singleOpts,
    votes := [frameRowTarget, frameRowOtherPoll, frameRowOtherUser,
              frameRowAnon],
    nextId := 5 }

/-- 250 batch entries: 100 for option a, then 100 for option b, then 50
for option c. -/
def batchVotes : List BatchEntry :=
  List.replicate 100 { optionId := "a", userId := none, fingerprint := none } ++
    List.replicate 100 { optionId := "b", userId := none, fingerprint := none } ++
    List.replicate 50 { optionId := "c", userId := none, fingerprint := none }

/-- The inserted row a successful store insert reports back for one
input row of a batch. -/
def batchToRow (r : VoteIns) : VoteRow :=
  { id := 0, poll_id := r.poll_id, option_id := r.option_id,
    user_id := r.user_id, voter_fingerprint := r.voter_fingerprint,
    created_at := 0 }

/-- A store insert that fails exactly on chunks whose first row selects
option b, and otherwise returns one inserted row per input row. -/
def batchInsertFn (rows : List VoteIns) : Except String (List VoteRow) :=
  if (rows.head?.map VoteIns.option_id) = some "b" then .error "boom"
  else .ok (rows.map batchToRow)

theorem roundDiv_close (a b : ℕ) (hb : 0 < b) :
    |((((2 * a + b) / (2 * b) : ℕ)) : ℚ) - (a : ℚ) / (b : ℚ)| ≤ 1 / 2 := by
  have hq := Nat.div_add_mod (2 * a + b) (2 * b)
  have hr : (2 * a + b) % (2 * b) < 2 * b := Nat.mod_lt _ (by omega)
  have hb' : (0 : ℚ) < (b : ℚ) := by exact_mod_cast hb
  have hcast : 2 * (b : ℚ) * (((2 * a + b) / (2 * b) : ℕ) : ℚ) +
      (((2 * a + b) % (2 * b) : ℕ) : ℚ) = 2 * (a : ℚ) + (b : ℚ) := by
    exact_mod_cast hq
  have hrq : ((((2 * a + b) % (2 * b) : ℕ)) : ℚ) < 2 * (b : ℚ) := by
    exact_mod_cast hr
  have hrq0 : (0 : ℚ) ≤ (((2 * a + b) % (2 * b) : ℕ) : ℚ) := by positivity
  have hkey : (((2 * a + b) / (2 * b) : ℕ) : ℚ) - (a : ℚ) / (b : ℚ) =
      ((b : ℚ) - (((2 * a + b) % (2 * b) : ℕ) : ℚ)) / (2 * (b : ℚ)) := by
    have hcb : (b : ℚ) * (2 * (b : ℚ) * (((2 * a + b) / (2 * b) : ℕ) : ℚ) +
        (((2 * a + b) % (2 * b) : ℕ) : ℚ)) =
        (b : ℚ) * (2 * (a : ℚ) + (b : ℚ)) := by
      rw [hcast]
    field_simp
    ring_nf
    ring_nf at hcb
    linarith [hcb]
  rw [hkey, abs_div, abs_of_pos (by positivity : (0 : ℚ) < 2 * (b : ℚ))]
  rw [div_le_iff₀ (by positivity : (0 : ℚ) < 2 * (b : ℚ))]
  have habs : |(b : ℚ) - (((2 * a + b) % (2 * b) : ℕ) : ℚ)| ≤ (b : ℚ) := by
    rw [abs_le]
    constructor <;> linarith
  linarith [habs]

/-- Claim C2, counterexample: the claim says a second cast-vote call by
an identity that already voted on a single-vote poll succeeds as a
replace.  On the primary vote route it is instead rejected as an error
(HTTP 400, "You have already voted on this poll") with the store left
unchanged. -/
theorem C2_counterexample :
    basicVotePost votedDB 10 (some "u1") ["o2"] none "p1" =
      (.err 400 "You have already voted on this poll", votedDB) := by
  decide

/-- Claim C3, counterexample: the claim says an unauthenticated request
with no fingerprint is rejected even when the poll allows anonymous
votes.  The primary vote route accepts such a request and records a
vote row with both identity columns null. -/
theorem C3_counterexample :
    (basicVotePost emptyDB 5 none ["o1"] none "p1").1.isOk = true ∧
    (basicVotePost emptyDB 5 none ["o1"] none "p1").1.votesOf =
      [{ id := 1, poll_id := "p1", option_id := "o1", user_id := none,
         voter_fingerprint := none, created_at := 5 }] := by
  decide

/-- Claim C4, counterexample: the claim says every results path rounds
to two decimal places.  With 1 vote out of 3, get_poll_results yields
33.33 percent (3333 hundredths) while the in-memory calculatePercentage
yields the integer 33 (3300 hundredths): the two paths disagree and the
in-memory one does not implement round(c/t*100, 2). -/
theorem C4_counterexample :
    (get_poll_results pctDB "p4").map ResultRow.percentage_hundredths =
      [3333, 6667] ∧
    pctHundredths 1 3 = 3333 ∧
    calculatePercentage 1 3 = 33 ∧
    100 * calculatePercentage 1 3 ≠ pctHundredths 1 3 := by
  decide

/-- Claim C5: evaluation of the code at the failing input.  On the
multi-vote poll p2, authenticated user u1 casts option m1 and then
option m2 in two separate castVote calls.  The schema's unconditional
UNIQUE(poll_id, user_id) makes the second insert a duplicate-key
violation even though the poll allows multiple votes (the trigger
correctly skips its check), so the ledger keeps exactly one row for u1
instead of the two rows the claim — and the constraint's own comment,
castVote's multi-vote branch and the repository's tests — expect. -/
theorem C5_code_bug_eval :
    castVote multiDB 10 multiForm1 (some "u1") =
      .ok (multiDB1, multiDB1.votes) ∧
    castVote multiDB1 20 multiForm2 (some "u1") =
      .error
        "Failed to cast vote: duplicate key value violates unique constraint" ∧
    userVoteCount multiDB1 "p2" "u1" = 1 := by
  decide

/-- Claim C6, counterexample: the claim says a poll whose expires_at
equals the current time is rejected as Expired.  The application's
expiry gates all compare with strict less-than, so at
now = expires_at = 100 the poll is classified as not expired and
validatePollForVoting passes; the attempt then reaches the write, where
the votes INSERT policy WITH CHECK (expires_at > NOW()) denies it —
castVote and the primary route fail with the storage-policy error, not
with the Expired rejection "Poll has expired", and the store is
unchanged. -/
theorem C6_counterexample :
    pollExpired expiringPoll 100 = false ∧
    validatePollForVoting expiringPoll 100 = none ∧
    castVote expiringDB 100 expiringForm none =
      .error
        "Failed to cast vote: new row violates row-level security policy for table votes" ∧
    basicVotePost expiringDB 100 none ["e1"] (some "f1") "p6" =
      (.err 400
        "Failed to cast vote: new row violates row-level security policy for table votes",
       expiringDB) := by
  decide

/-- Claim C9: with neither an authenticated user id nor a fingerprint,
checkRateLimit and updateRateLimit both address the single shared key
"rate_limit:vote:anonymous", so all such requests share one counter:
an update writes that key, and a check reads it. -/
theorem C9_shared_key :
    checkRateLimitKey none none = "rate_limit:vote:anonymous" ∧
    updateRateLimitKey none none = "rate_limit:vote:anonymous" ∧
    updateRateLimit [] 0 none none = [("rate_limit:vote:anonymous", 1, 60)] ∧
    (checkRateLimit [("rate_limit:vote:anonymous", 10, 50)] 0 none
      none).allowed = false := by
  decide

/-- Claim C4, amended: both result paths return 0 when the poll has no
votes, and for a nonzero total the database path returns
round(count/total*100, 2) while the in-memory calculatePercentage
returns round(count/total*100, 0) — each within its rounding radius of
the exact percentage — so the two paths can differ by up to about half
a percentage point and agree only up to that tolerance. -/
theorem C4_amended (c t : ℕ) (ht : 0 < t) :
    calculatePercentage c 0 = 0 ∧ pctHundredths c 0 = 0 ∧
    |((calculatePercentage c t : ℚ)) - 100 * (c : ℚ) / (t : ℚ)| ≤ 1 / 2 ∧
    |((pctHundredths c t : ℚ)) / 100 - 100 * (c : ℚ) / (t : ℚ)| ≤ 1 / 200 ∧
    |((pctHundredths c t : ℚ)) / 100 - (calculatePercentage c t : ℚ)| ≤
      101 / 200 := by
  have ht' : t ≠ 0 := Nat.pos_iff_ne_zero.mp ht
  have hcalc : |((calculatePercentage c t : ℚ)) -
      100 * (c : ℚ) / (t : ℚ)| ≤ 1 / 2 := by
    rw [calculatePercentage, if_neg ht']
    have h2 : ((c * 100 : ℕ) : ℚ) / (t : ℚ) = 100 * (c : ℚ) / (t : ℚ) := by
      push_cast
      ring
    rw [← h2]
    exact roundDiv_close (c * 100) t ht
  have hpct : |((pctHundredths c t : ℚ)) / 100 -
      100 * (c : ℚ) / (t : ℚ)| ≤ 1 / 200 := by
    rw [pctHundredths, if_neg ht']
    have h3 := roundDiv_close (c * 10000) t ht
    have h4 : ((((2 * (c * 10000) + t) / (2 * t) : ℕ)) : ℚ) / 100 -
        100 * (c : ℚ) / (t : ℚ) =
        (((((2 * (c * 10000) + t) / (2 * t) : ℕ)) : ℚ) -
          ((c * 10000 : ℕ) : ℚ) / (t : ℚ)) / 100 := by
      push_cast
      ring
    rw [h4, abs_div, abs_of_pos (by norm_num : (0 : ℚ) < 100)]
    rw [div_le_iff₀ (by norm_num : (0 : ℚ) < 100)]
    have : (1 : ℚ) / 200 * 100 = 1 / 2 := by norm_num
    rw [this]
    exact h3
  refine ⟨by simp [calculatePercentage], by simp [pctHundredths],
    hcalc, hpct, ?_⟩
  have h5 := abs_sub_le (((pctHundredths c t : ℚ)) / 100)
    (100 * (c : ℚ) / (t : ℚ)) ((calculatePercentage c t : ℚ))
  have h6 : |100 * (c : ℚ) / (t : ℚ) - ((calculatePercentage c t : ℚ))| =
      |((calculatePercentage c t : ℚ)) - 100 * (c : ℚ) / (t : ℚ)| :=
    abs_sub_comm _ _
  linarith

/-- Claim C4, witness: the amended theorem applied at 1 vote of 3. -/
theorem C4_witness :
    (0 : ℕ) < 3 ∧
    |((pctHundredths 1 3 : ℚ)) / 100 - (calculatePercentage 1 3 : ℚ)| ≤
      101 / 200 :=
  ⟨by decide, (C4_amended 1 3 (by decide)).2.2.2.2⟩

/-- Claim C7: an identity whose rate-limit counter already records 10
votes in a live window is denied on its next cast-vote attempt: the
optimized route answers RateLimited with retry_after equal to the
remaining window time, which is strictly positive, and neither the
ledger, the rate-limit store nor the cache is touched. -/
theorem C7_rate_limited (db : DB) (cache : PollCache)
    (rl : RateLimitStore) (now expiry : Int)
    (user fingerprint : Option String) (vd : VoteForm)
    (hkey : redisFind rl (checkRateLimitKey user fingerprint) =
      some (10, expiry))
    (hlive : now < expiry) :
    optimizedVotePost db cache rl now user fingerprint vd vd.poll_id =
      (.rateLimited (expiry - now), db, rl, cache) ∧
    0 < expiry - now := by
  have hchk : checkRateLimit rl now user fingerprint =
      { allowed := false, retryAfter := expiry - now } := by
    simp [checkRateLimit, redisGetCount, hkey, hlive, RATE_LIMIT_MAX_VOTES]
  constructor
  · simp [optimizedVotePost, hchk]
  · omega

/-- Claim C7, witness: the theorem applied to a store whose counter for
user u2 records 10 votes expiring at time 60, at current time 30. -/
theorem C7_witness :
    optimizedVotePost emptyDB [] [("rate_limit:vote:u2", 10, 60)] 30
      (some "u2") none revoteForm "p1" =
      (.rateLimited 30, emptyDB, [("rate_limit:vote:u2", 10, 60)], []) ∧
    (0 : Int) < 30 := by
  have h := C7_rate_limited emptyDB [] [("rate_limit:vote:u2", 10, 60)]
    30 60 (some "u2") none revoteForm (by decide) (by decide)
  simpa using h

/-- Claim C10: an authenticated self-removal (deleteAll not set) on
poll P by user U deletes only rows with poll_id = P and user_id = U:
every anonymous (null user_id) row, every other user's row and every
row of another poll survives, and any deleted row did carry P and U. -/
theorem C10_frame (db : DB) (u pid : String) (poll : Poll)
    (hfind : findPoll db pid = some poll) :
    (∀ v ∈ db.votes, v.user_id = none →
      v ∈ (deleteVotesHandler db (some u) pid false).2.votes) ∧
    (∀ v ∈ db.votes, (v.poll_id ≠ pid ∨ v.user_id ≠ some u) →
      v ∈ (deleteVotesHandler db (some u) pid false).2.votes) ∧
    (∀ v ∈ db.votes,
      v ∉ (deleteVotesHandler db (some u) pid false).2.votes →
      v.poll_id = pid ∧ v.user_id = some u) := by
  have hres : (deleteVotesHandler db (some u) pid false).2.votes =
      db.votes.filter (fun v =>
        ¬(v.poll_id = pid ∧ (false = true ∨ v.user_id = some u))) := by
    simp only [deleteVotesHandler, hfind]
    rw [if_neg (by simp)]
  refine ⟨?_, ?_, ?_⟩
  · intro v hv hnone
    rw [hres, List.mem_filter]
    refine ⟨hv, ?_⟩
    simp [hnone]
  · intro v hv hor
    rw [hres, List.mem_filter]
    refine ⟨hv, ?_⟩
    simp only [decide_eq_true_eq]
    rintro ⟨hpid, hf | huser⟩
    · exact absurd hf (by simp)
    · rcases hor with hno | hno
      · exact hno hpid
      · exact hno huser
  · intro v hv hnot
    by_contra hcon
    apply hnot
    rw [hres, List.mem_filter]
    refine ⟨hv, ?_⟩
    simp only [decide_eq_true_eq]
    rintro ⟨hpid, hf | huser⟩
    · exact absurd hf (by simp)
    · exact hcon ⟨hpid, huser⟩

/-- Claim C10, witness: on the four-row ledger, user u1's self-removal
on p1 keeps the anonymous row, u2's row and u1's row on the other
poll. -/
theorem C10_witness :
    frameRowAnon ∈
      (deleteVotesHandler frameDB (some "u1") "p1" false).2.votes ∧
    frameRowOtherUser ∈
      (deleteVotesHandler frameDB (some "u1") "p1" false).2.votes ∧
    frameRowOtherPoll ∈
      (deleteVotesHandler frameDB (some "u1") "p1" false).2.votes := by
  have h := C10_frame frameDB "u1" "p1" singlePoll (by decide)
  exact ⟨h.1 frameRowAnon (by decide) (by decide),
    h.2.1 frameRowOtherUser (by decide) (Or.inr (by decide)),
    h.2.1 frameRowOtherPoll (by decide) (Or.inl (by decide))⟩

/-- Claim C8: a 250-entry batch is split into successive chunks of 100
(sizes 100, 100, 50) submitted independently; when the store insert
fails exactly on the second chunk and succeeds on the other two
(returning one row per input), the response reports processed = 150,
failed = 100 and a single error message. -/
theorem C8_batch (insertFn : List VoteIns → Except String (List VoteRow))
    (pid : String) (votes : List BatchEntry) (e : String)
    (r1 r3 : List VoteRow)
    (hlen : votes.length = 250)
    (h1 : insertFn (mkBatchInserts pid (votes.take 100)) = .ok r1)
    (hr1 : r1.length = 100)
    (h2 : insertFn (mkBatchInserts pid ((votes.drop 100).take 100)) =
      .error e)
    (h3 : insertFn (mkBatchInserts pid (votes.drop 200)) = .ok r3)
    (hr3 : r3.length = 50) :
    chunksOf votes =
      [votes.take 100, (votes.drop 100).take 100, votes.drop 200] ∧
    (chunksOf votes).map List.length = [100, 100, 50] ∧
    processBatch insertFn pid votes = (150, 100, ["Batch error: " ++ e]) := by
  have hne1 : ¬votes = [] := by
    intro hv
    rw [hv] at hlen
    simp at hlen
  have hlen2 : (votes.drop 100).length = 150 := by simp [hlen]
  have hne2 : ¬votes.drop 100 = [] := by
    intro hv
    rw [hv] at hlen2
    simp at hlen2
  have hdd : (votes.drop 100).drop 100 = votes.drop 200 := by
    rw [List.drop_drop]
  have hlen4 : (votes.drop 200).length = 50 := by simp [hlen]
  have hne3 : ¬votes.drop 200 = [] := by
    intro hv
    rw [hv] at hlen4
    simp at hlen4
  have htake3 : (votes.drop 200).take 100 = votes.drop 200 :=
    List.take_of_length_le (by omega)
  have hnil4 : (votes.drop 200).drop 100 = [] := by
    apply List.drop_eq_nil_of_le
    omega
  have hchunks : chunksOf votes =
      [votes.take 100, (votes.drop 100).take 100, votes.drop 200] := by
    rw [chunksOf, dif_neg hne1]
    simp only [CHUNK_SIZE]
    rw [chunksOf, dif_neg hne2]
    simp only [CHUNK_SIZE]
    rw [hdd]
    rw [chunksOf, dif_neg hne3]
    simp only [CHUNK_SIZE]
    rw [htake3, hnil4]
    rw [chunksOf, dif_pos rfl]
  have hl2 : ((votes.drop 100).take 100).length = 100 := by
    simp [hlen]
  refine ⟨hchunks, ?_, ?_⟩
  · rw [hchunks]
    simp [hlen]
  · rw [processBatch, hchunks]
    simp only [List.foldl_cons, List.foldl_nil, h1, h2, h3]
    simp [hr1, hr3, hl2]

set_option maxRecDepth 4000 in
/-- Claim C8, witness: the theorem applied to a concrete 250-entry
batch whose second hundred selects option b, against a store insert
that fails exactly on those chunks. -/
theorem C8_witness :
    chunksOf batchVotes =
      [batchVotes.take 100, (batchVotes.drop 100).take 100,
        batchVotes.drop 200] ∧
    (chunksOf batchVotes).map List.length = [100, 100, 50] ∧
    processBatch batchInsertFn "p1" batchVotes =
      (150, 100, ["Batch error: " ++ "boom"]) :=
  C8_batch batchInsertFn "p1" batchVotes "boom"
    ((mkBatchInserts "p1" (batchVotes.take 100)).map batchToRow)
    ((mkBatchInserts "p1" (batchVotes.drop 200)).map batchToRow)
    (by decide) (by decide) (by decide) (by decide) (by decide) (by decide)

/-- Claim C2, amended: on the primary vote route, a second cast-vote
call by an identity that already has a vote on a single-vote poll does
not succeed as a replace: it is rejected with HTTP 400 "You have
already voted on this poll" and the store is left unchanged. -/
theorem C2_amended (db : DB) (now : Int) (u oid pid : String)
    (fp : Option String) (poll : Poll)
    (hfind : findPoll db pid = some poll)
    (hpub : poll.is_public = true)
    (hexp : pollExpired poll now = false)
    (hopts : (db.options.filter (fun o => o.poll_id = pid ∧
      o.id ∈ [oid])).length = 1)
    (hsingle : poll.allow_multiple_votes = false)
    (hvoted : getUserVote db pid (some u) fp ≠ []) :
    basicVotePost db now (some u) [oid] fp pid =
      (.err 400 "You have already voted on this poll", db) := by
  simp only [List.mem_singleton, Bool.decide_and] at hopts
  simp [basicVotePost, hfind, hpub, hexp, hopts, hsingle, hvoted]

/-- Claim C2, witness: the amended theorem at the concrete store where
u1 already voted o1 on the single-vote poll p1 and re-votes o2. -/
theorem C2_witness :
    basicVotePost votedDB 10 (some "u1") ["o2"] none "p1" =
      (.err 400 "You have already voted on this poll", votedDB) :=
  C2_amended votedDB 10 "u1" "o2" "p1" none singlePoll (by decide)
    (by decide) (by decide) (by decide) (by decide) (by decide)

/-- Claim C3, amended: the primary vote route rejects an identity iff
there is no authenticated user and the poll disallows anonymous votes;
the absence of a client fingerprint alone never causes rejection — an
unauthenticated, fingerprint-less request on an anonymous-allowed poll
is accepted and recorded as a ledger row with both identity columns
null. -/
theorem C3_amended (db : DB) (now : Int) (oid pid : String)
    (fp : Option String) (poll : Poll)
    (hfind : findPoll db pid = some poll)
    (hpub : poll.is_public = true)
    (hopen : pollStillOpen poll now = true)
    (hopts : (db.options.filter (fun o => o.poll_id = pid ∧
      o.id ∈ [oid])).length = 1) :
    (poll.allow_anonymous_votes = false →
      basicVotePost db now none [oid] fp pid =
        (.err 401 "Authentication required to vote on this poll", db)) ∧
    (poll.allow_anonymous_votes = true →
      basicVotePost db now none [oid] none pid =
        (.ok [nullIdentityRow db pid oid now]
          (get_poll_results
            (appendVote db (nullIdentityRow db pid oid now)) pid),
         appendVote db (nullIdentityRow db pid oid now))) := by
  simp only [List.mem_singleton, Bool.decide_and] at hopts
  have hexp : pollExpired poll now = false := by
    rw [pollStillOpen] at hopen
    rw [pollExpired]
    cases hpe : poll.expires_at with
    | none => rfl
    | some t =>
      rw [hpe] at hopen
      simp only [decide_eq_true_eq] at hopen
      simp only [decide_eq_false_iff_not]
      omega
  have hmem : poll ∈ db.polls := List.mem_of_find?_eq_some hfind
  have hid : poll.id = pid := by
    have := List.find?_some hfind
    simpa using this
  have hpol : ∀ r : VoteIns, r.poll_id = pid →
      votesInsertPolicy db now r = true := by
    intro r hr
    rw [votesInsertPolicy, List.any_eq_true]
    refine ⟨poll, hmem, ?_⟩
    simp [hid, hr, hpub, hopen]
  constructor
  · intro hanon
    simp [basicVotePost, hfind, hpub, hexp, hanon]
  · intro hanon
    simp [basicVotePost, hfind, hpub, hexp, hopts, hanon, hpol, castVote,
      getUserVote, insertVotes, validate_vote, uniqueConflict,
      deleteExistingForIdentity, nullIdentityRow, appendVote]

/-- Claim C3, witness: the amended theorem at the empty single-vote
poll store: with anonymity allowed, the fingerprint-less anonymous cast
succeeds and leaves one null-identity row. -/
theorem C3_witness :
    basicVotePost emptyDB 5 none ["o1"] none "p1" =
      (.ok [nullIdentityRow emptyDB "p1" "o1" 5]
        (get_poll_results
          (appendVote emptyDB (nullIdentityRow emptyDB "p1" "o1" 5)) "p1"),
       appendVote emptyDB (nullIdentityRow emptyDB "p1" "o1" 5)) :=
  (C3_amended emptyDB 5 "o1" "p1" none singlePoll (by decide) (by decide)
    (by decide) (by decide)).2 (by decide)

/-- Claim C6, amended: a poll is rejected as Expired iff expires_at is
strictly before now: castVote then fails with "Poll has expired" before
touching the ledger, the optimized route's validation reports the same,
and the primary route answers HTTP 400 "Poll has expired" with the
store unchanged.  At expires_at exactly equal to now, these gates treat
the poll as not expired and the attempt instead fails at the votes
INSERT policy with a storage-policy error, not as Expired; no row is
inserted either way (see the counterexample). -/
theorem C6_amended (db : DB) (now t : Int) (vd : VoteForm)
    (userId user : Option String) (oids : List String)
    (fp : Option String) (poll : Poll)
    (hfind : findPoll db vd.poll_id = some poll)
    (ht : poll.expires_at = some t)
    (hlt : t < now)
    (hoids : oids ≠ [])
    (hpub : poll.is_public = true) :
    castVote db now vd userId = .error "Poll has expired" ∧
    validatePollForVoting poll now = some "Poll has expired" ∧
    basicVotePost db now user oids fp vd.poll_id =
      (.err 400 "Poll has expired", db) := by
  have hexp : pollExpired poll now = true := by
    simp [pollExpired, ht, hlt]
  refine ⟨?_, ?_, ?_⟩
  · simp [castVote, hfind, hexp]
  · simp [validatePollForVoting, hexp]
  · simp [basicVotePost, hfind, hoids, hpub, hexp]

/-- Claim C6, witness: the amended theorem one second after the
boundary: at now = 101 on the poll expiring at 100, every gate rejects
as Expired. -/
theorem C6_witness :
    castVote expiringDB 101 expiringForm none = .error "Poll has expired" ∧
    validatePollForVoting expiringPoll 101 = some "Poll has expired" ∧
    basicVotePost expiringDB 101 none ["e1"] (some "f1") "p6" =
      (.err 400 "Poll has expired", expiringDB) :=
  C6_amended expiringDB 101 100 expiringForm none none ["e1"] (some "f1")
    expiringPoll (by decide) (by decide) (by decide) (by decide) (by decide)

end Pully
